import Mathlib

/-!
Verification development for the Smart Tool Recommendations bot
(`main.py`, `create_embeddings.py`).

The Python sources are shallowly embedded below: pure helpers become Lean
functions; every external capability (the Groq chat-completion client, the
Google Custom Search HTTP call, JSON parsing of an external response) is an
explicit oracle argument, so that "the code makes no external call" is
expressed as independence from the oracle; the per-user Telegram session
(`ConversationHandler` states plus `context.user_data`) is explicit state
threaded through a dispatch step function.
-/

namespace SmartToolsBot

/-! ## Character-list string machinery

`main.py` manipulates Python strings (substring tests, `split(':', 1)`,
f-string concatenation).  We model these on `List Char` via `String.data`,
with structural recursion so every function is executable and
kernel-reducible. -/

/-- Boolean test that `p` is an initial segment of `l` (Python `startswith`,
and the anchored regex `^pat` used for callback routing). -/
def listStartsWith : List Char → List Char → Bool
  | [], _ => true
  | _ :: _, [] => false
  | a :: as, b :: bs => a == b && listStartsWith as bs

/-- Boolean test that `p` occurs as a contiguous substring of `l`
(Python `p in l`). -/
def listContains : List Char → List Char → Bool
  | [], p => p.isEmpty
  | c :: rest, p => listStartsWith p (c :: rest) || listContains rest p

/-- Python `pat in s` on strings. -/
def strContains (s pat : String) : Bool := listContains s.data pat.data

/-- Python `s.startswith(pat)` on strings. -/
def strStartsWith (pat s : String) : Bool := listStartsWith pat.data s.data

/-- Python `s.lower()`: character-wise lowercasing. -/
def strLower (s : String) : String := ⟨s.data.map Char.toLower⟩

/-- Everything after the first `':'` — Python `s.split(':', 1)[1]` when a
colon is present, as in the callback-data parsing of `main.py`. -/
def afterColon : List Char → List Char
  | [] => []
  | c :: cs => if c == ':' then cs else afterColon cs

/-- String form of `afterColon`. -/
def stringAfterColon (s : String) : String := ⟨afterColon s.data⟩

/-! ## Catalog data model (`tools.json` records) -/

/-- One record of the `tools.json` catalog, with the fields `main.py` and
`create_embeddings.py` read (`name`, `category`, `description`, `url`,
`keywords`). -/
structure ToolRecord where
  name : String
  category : String
  description : String
  url : String
  keywords : List String
deriving DecidableEq, Repr

/-- `find_tool_by_name` from `main.py`: first catalog record whose lowercased
name equals the lowercased query, else `none`. -/
def find_tool_by_name (tools_db : List ToolRecord) (name : String) : Option ToolRecord :=
  tools_db.find? (fun tool => strLower tool.name == strLower name)

/-! ## `tools_db_string`: the JSON serialization sent to the reranker

`main.py` computes `tools_db_string = json.dumps(tools_db, ensure_ascii=False)`
at module load.  `json.dumps` (Python standard library, external to this
repository) renders a list of objects with `", "` / `": "` separators; we model
it structurally, with the record fields in the order of the data model. -/

/-- Double-quoted rendering of a string (internal escaping elided — catalog
fields in scope contain no quote characters). -/
def jquote (s : String) : String := "\"" ++ s ++ "\""

/-- `json.dumps` of one catalog record. -/
def toolJson (t : ToolRecord) : String :=
  "\x7b" ++ jquote "name" ++ ": " ++ jquote t.name
  ++ ", " ++ jquote "category" ++ ": " ++ jquote t.category
  ++ ", " ++ jquote "description" ++ ": " ++ jquote t.description
  ++ ", " ++ jquote "url" ++ ": " ++ jquote t.url
  ++ ", " ++ jquote "keywords" ++ ": ["
  ++ String.intercalate ", " (t.keywords.map jquote) ++ "]\x7d"

/-- Comma-join of already-rendered elements (the separator placement of
`json.dumps` on a list). -/
def jsonList : List String → String
  | [] => ""
  | [s] => s
  | s :: rest => s ++ ", " ++ jsonList rest

/-- `json.dumps(tools_db, ensure_ascii=False)` from `main.py` line 63. -/
def jsonDumps (ts : List ToolRecord) : String :=
  "[" ++ jsonList (ts.map toolJson) ++ "]"

/-! ## The reranker: `get_semantic_recommendation` (`main.py` 123–150) -/

/-- Outcome of one Groq chat-completion call, as observed by the caller:
either some exception (transport error, timeout, client-construction error —
all land in the handler's `except`), or a response content string. -/
inductive GroqOutcome where
  | failure
  | success (content : String)
deriving DecidableEq, Repr

/-- Outcome of `json.loads(content)` followed by `data.get("best_matches", [])`:
`parseError` models `json.loads` raising; `parsed none` models a JSON object
without a `best_matches` key; `parsed (some names)` the expected structure. -/
inductive ParseOutcome where
  | parseError
  | parsed (best_matches : Option (List String))
deriving DecidableEq, Repr

/-- Python truthiness test `not X` for an environment variable:
`os.getenv` yields `None` (unset) or a string, and both `None` and the empty
string are falsy. -/
def falsyStr : Option String → Bool
  | none => true
  | some s => s.isEmpty

/-- The user payload of the reranking call (`main.py` 133–136):
`f"User's request: \"{user_text}\"\n\n"
 f"Here is the list of available tools in JSON format:\n{tools_db_string}"`. -/
def user_prompt (user_text tools_db_string : String) : String :=
  "User\x27s request: \"" ++ user_text ++ "\"\n\n"
  ++ "Here is the list of available tools in JSON format:\n" ++ tools_db_string

/-- `get_semantic_recommendation` (`main.py` 123–150).  The Groq client and
the JSON parsing of its response are oracles: `llm` maps the user payload to
an outcome, `parse` maps response content to the extracted `best_matches`.
The `try`/`except` of the source catches every exception and returns `[]`. -/
def get_semantic_recommendation (groq_api_key : Option String)
    (llm : String → GroqOutcome) (parse : String → ParseOutcome)
    (tools_db_string : String) (user_text : String) : List String :=
  if falsyStr groq_api_key then []
  else
    match llm (user_prompt user_text tools_db_string) with
    | .failure => []
    | .success content =>
      match parse content with
      | .parseError => []
      | .parsed none => []
      | .parsed (some names) => names

/-- A record is mentioned in a payload string when its full JSON rendering
occurs as a substring. -/
def mentions (payload : String) (t : ToolRecord) : Bool :=
  strContains payload (toolJson t)

/-! ## Lexical retrieval: `find_tools_in_db`

Modelled from the spec: `keyword_search` (`main.py` 265–283) calls
`find_tools_in_db([keyword])`, but no definition of `find_tools_in_db` is
present in the provided sources.  The definitions below follow the spec's
words (§4.3): per query keyword, category substring match = 3, name substring
match = 2, any keyword-list entry substring match = 1, description substring
match = 0.5; scores accumulate additively across query keywords; records with
total score 0 are excluded; the rest are sorted by descending score with ties
broken by catalog order (a stable sort, realized here by sorting score-index
pairs), and truncated to the top 3. -/

/-- Modelled from the spec: the weighted score one query keyword contributes
to one record (§4.3). -/
def keyword_score (t : ToolRecord) (kw : String) : Rat :=
  (if strContains t.category kw then 3 else 0)
  + (if strContains t.name kw then 2 else 0)
  + (if t.keywords.any (fun entry => strContains entry kw) then 1 else 0)
  + (if strContains t.description kw then (1 : Rat) / 2 else 0)

/-- Modelled from the spec: total score of a record, summed over the query
keywords. -/
def total_score (keywords : List String) (t : ToolRecord) : Rat :=
  (keywords.map (keyword_score t)).sum

/-- Catalog records paired with catalog position and total score, records of
score 0 already excluded. -/
def scored_tools (tools_db : List ToolRecord) (keywords : List String) :
    List (Nat × ToolRecord × Rat) :=
  (tools_db.enum.map (fun p => (p.1, p.2, total_score keywords p.2))).filter
    (fun q => q.2.2 ≠ 0)

/-- The sort key of the lexical retriever: strictly larger score first, equal
scores ordered by catalog position. -/
def scoreLE (a b : Nat × ToolRecord × Rat) : Bool :=
  decide (b.2.2 < a.2.2 ∨ (a.2.2 = b.2.2 ∧ a.1 ≤ b.1))

/-- Surviving records sorted by descending score, ties by catalog order. -/
def sorted_scored_tools (tools_db : List ToolRecord) (keywords : List String) :
    List (Nat × ToolRecord × Rat) :=
  (scored_tools tools_db keywords).mergeSort scoreLE

/-- Modelled from the spec: `find_tools_in_db` — top-3 records of the sorted,
filtered scoring. -/
def find_tools_in_db (tools_db : List ToolRecord) (keywords : List String) :
    List ToolRecord :=
  ((sorted_scored_tools tools_db keywords).take 3).map (fun q => q.2.1)

/-! ## Embedding-index build: `create_and_save_embeddings`
(`create_embeddings.py` 23–55) -/

/-- The canonical text embedded for one record (`create_embeddings.py` 27):
`f"שם: {name}. קטגוריה: {category}. תיאור: {description}"` — exactly the
`name`, `category` and `description` fields. -/
def combined_text (t : ToolRecord) : String :=
  "שם: " ++ t.name ++ ". קטגוריה: " ++ t.category ++ ". תיאור: " ++ t.description

/-- The artifacts of one embedding-index build: the texts handed to the
encoder, the parallel name list, the vectors added to the Faiss index (the
index row count is their number), and the saved `index_to_name` mapping. -/
structure EmbeddingBuild (V : Type) where
  texts_to_embed : List String
  tool_names : List String
  embeddings : List V
  index_to_name : List (Nat × String)

/-- `create_and_save_embeddings` (`create_embeddings.py` 23–55).  The
sentence-transformer encoder is an oracle producing one vector per input
string (its documented contract), so `model.encode(texts)` is `texts.map
encode_one`; `index.add(embeddings)` adds one row per vector; the mapping is
`{i: name for i, name in enumerate(tool_names)}`. -/
def create_and_save_embeddings {V : Type} (encode_one : String → V)
    (tools : List ToolRecord) : EmbeddingBuild V :=
  let texts := tools.map combined_text
  let names := tools.map (fun t => t.name)
  { texts_to_embed := texts
    tool_names := names
    embeddings := texts.map encode_one
    index_to_name := names.enum }

/-! ## Fallback recommender: live web search + summarization
(`main.py` 68–121) -/

/-- One item of the Google Custom Search response (`items` array); `main.py`
reads `title`, `snippet`, `link` with `.get(…, '')`, so each is optional. -/
structure SearchItem where
  title : Option String
  snippet : Option String
  link : Option String
deriving DecidableEq, Repr

/-- Outcome of the `requests.get` + `raise_for_status` + `.json()` sequence,
restricted to well-formed responses: `requestError` models any
`requests.exceptions.RequestException` (transport error, HTTP error status,
undecodable body — all caught by the handler); `ok none` a decoded object
body without an `items` key (`.get('items', [])`); `ok (some items)` an
`items` value that is a list of objects.  Bodies outside this shape make the
source raise — see `PyBody`/`perform_live_web_search_raw` below for the
unrestricted model. -/
inductive WebOutcome where
  | requestError
  | ok (items : Option (List SearchItem))

/-- `perform_live_web_search` (`main.py` 68–91) on well-formed responses.
The HTTP transaction is the oracle `http`, applied to the query; the
credential falsiness test mirrors
`if not GOOGLE_SEARCH_API_KEY or not CUSTOM_SEARCH_ENGINE_ID`.  This is the
restriction of `perform_live_web_search_raw` (below) to bodies on which the
source does not raise. -/
def perform_live_web_search (google_search_api_key custom_search_engine_id : Option String)
    (http : String → WebOutcome) (query : String) : List SearchItem :=
  if falsyStr google_search_api_key || falsyStr custom_search_engine_id then []
  else
    match http query with
    | .requestError => []
    | .ok none => []
    | .ok (some items) => items

/-- One rendered snippet block (`main.py` 98). -/
def item_snippet (i : SearchItem) : String :=
  "Title: " ++ i.title.getD "" ++ "\nSnippet: " ++ i.snippet.getD ""
  ++ "\nLink: " ++ i.link.getD ""

/-- `context_str` (`main.py` 99): snippet blocks joined by `"\n\n---\n\n"`. -/
def context_str (results : List SearchItem) : String :=
  String.intercalate "\n\n---\n\n" (results.map item_snippet)

/-- The user content of the summarization call (`main.py` 112). -/
def summaryUserContent (results : List SearchItem) (original_query : String) : String :=
  "Original query: \x27" ++ original_query ++ "\x27\n\nSearch Results:\n"
  ++ context_str results

/-- Fixed reply when the search returned nothing (`main.py` 96). -/
def noResultsMsg : String := "לא נמצאו תוצאות רלוונטיות בחיפוש."

/-- Fixed reply when the summarization call raised (`main.py` 121). -/
def summErrorMsg : String := "אירעה שגיאה בעת סיכום תוצאות החיפוש."

/-- `summarize_search_results` (`main.py` 93–121) on a well-formed result
list.  Empty results short-circuit before any external call; otherwise the
Groq call is the oracle `summ_llm` applied to the rendered user content, and
any exception in that call becomes the fixed error message.  This is the
restriction of `summarize_search_results_raw` (below) to inputs on which the
source does not raise (see `summarize_search_results_raw_agrees`). -/
def summarize_search_results (summ_llm : String → GroqOutcome)
    (results : List SearchItem) (original_query : String) : String :=
  if results.isEmpty then noResultsMsg
  else
    match summ_llm (summaryUserContent results original_query) with
    | .failure => summErrorMsg
    | .success content => content

/-! ## The fallback recommender on unrestricted inputs

The `except` clause of `perform_live_web_search` catches only
`requests.exceptions.RequestException`, so a 200 response whose decoded JSON
body is not an object makes `search_results.get('items', [])` (`main.py` 88,
inside the `try`) raise an uncaught `AttributeError`; and the `items` value
is returned unvalidated.  In `summarize_search_results` the snippet list
comprehension (`main.py` 98) runs before the `try`, so a truthy `items`
value that is not a list of objects raises `TypeError`/`AttributeError`
there.  The definitions below model the functions over the unrestricted
values the `json` module can produce, with an explicit constructor for an
exception escaping the function. -/

/-- An element of a decoded `items` array: a JSON object (only the `title`,
`snippet`, `link` fields are read, each with `.get(…, '')`), or any
non-object value, on which `item.get` raises `AttributeError`. -/
inductive PyItem where
  | dict (title snippet link : Option String)
  | nonDict
deriving DecidableEq, Repr

/-- Whether an element is an object (so `item.get` succeeds on it). -/
def PyItem.isDict : PyItem → Bool
  | .dict _ _ _ => true
  | .nonDict => false

/-- A decoded `items` value: a list, a truthy non-list (non-empty string,
non-empty object, number, `true` — iterating or subscripting it in the
snippet comprehension raises), or a falsy non-list (`""`, `0`, `None`,
`{}` — `if not results` treats it like an empty list). -/
inductive PyItemsVal where
  | list (elems : List PyItem)
  | truthyNonList
  | falsyNonList
deriving DecidableEq, Repr

/-- Python falsiness of an `items` value (`if not results`). -/
def PyItemsVal.isFalsy : PyItemsVal → Bool
  | .list elems => elems.isEmpty
  | .truthyNonList => false
  | .falsyNonList => true

/-- A decoded 200-response body: a JSON object whose `items` key is absent or
holds some value, or any non-object body — on which `search_results.get`
raises `AttributeError`. -/
inductive PyBody where
  | obj (items : Option PyItemsVal)
  | nonObj
deriving DecidableEq, Repr

/-- Outcome of `requests.get` + `raise_for_status` + `.json()` without any
shape restriction: `requestError` is any `requests.exceptions.RequestException`
(transport error, HTTP error status, undecodable body — requests raises its
own `JSONDecodeError`, a `RequestException`, for the latter); `ok body` a
successfully decoded body of any shape. -/
inductive WebHttpOutcome where
  | requestError
  | ok (body : PyBody)

/-- Result of one `perform_live_web_search` call: a returned value, or an
exception escaping the function to its caller. -/
inductive WebReturn where
  | ok (items : PyItemsVal)
  | exn
deriving DecidableEq, Repr

/-- `perform_live_web_search` (`main.py` 68–91) over unrestricted decoded
bodies.  The `except` catches only `RequestException`, so the
`AttributeError` raised by `search_results.get('items', [])` on a non-object
body escapes (`.exn`); a present `items` value is returned unvalidated. -/
def perform_live_web_search_raw
    (google_search_api_key custom_search_engine_id : Option String)
    (http : String → WebHttpOutcome) (query : String) : WebReturn :=
  if falsyStr google_search_api_key || falsyStr custom_search_engine_id then
    .ok (.list [])
  else
    match http query with
    | .requestError => .ok (.list [])
    | .ok .nonObj => .exn
    | .ok (.obj none) => .ok (.list [])
    | .ok (.obj (some v)) => .ok v

/-- Result of one `summarize_search_results` call: a returned message, or an
exception escaping the function to its caller. -/
inductive SummarizeReturn where
  | ok (message : String)
  | exn
deriving DecidableEq, Repr

/-- The fields a well-formed element contributes to the snippet rendering. -/
def searchItemOfPy : PyItem → SearchItem
  | .dict t s l => ⟨t, s, l⟩
  | .nonDict => ⟨none, none, none⟩

/-- Injection of a well-formed result item into the unrestricted value type. -/
def pyItemOfSearchItem (i : SearchItem) : PyItem := .dict i.title i.snippet i.link

/-- `summarize_search_results` (`main.py` 93–121) over unrestricted `items`
values.  A falsy value short-circuits to the fixed no-results message; a
truthy value enters the snippet comprehension, which runs before the `try`
and raises (`.exn`) unless the value is a list of objects; on a list of
objects the Groq call is the oracle, its exceptions becoming the fixed error
message. -/
def summarize_search_results_raw (summ_llm : String → GroqOutcome)
    (results : PyItemsVal) (original_query : String) : SummarizeReturn :=
  if results.isFalsy then .ok noResultsMsg
  else
    match results with
    | .list elems =>
      if elems.all PyItem.isDict then
        match summ_llm (summaryUserContent (elems.map searchItemOfPy) original_query) with
        | .failure => .ok summErrorMsg
        | .success content => .ok content
      else .exn
    | .truthyNonList => .exn
    | .falsyNonList => .ok noResultsMsg

/-! ## Price lookup: `get_price_from_groq` (`main.py` 152–167) -/

/-- Fixed reply when the Groq credential is falsy (`main.py` 155). -/
def priceNoKeyMsg : String := "לא ניתן היה לבדוק את המחיר."

/-- Fixed reply when the price call raised (`main.py` 167). -/
def priceErrorMsg : String := "אירעה שגיאה בעת בדיקת המחיר."

/-- `get_price_from_groq` (`main.py` 152–167), with the Groq call as the
oracle `price_llm` applied to the tool name. -/
def get_price_from_groq (groq_api_key : Option String)
    (price_llm : String → GroqOutcome) (tool_name : String) : String :=
  if falsyStr groq_api_key then priceNoKeyMsg
  else
    match price_llm tool_name with
    | .failure => priceErrorMsg
    | .success content => content

/-! ## The session/dialogue controller

`main.py` drives a `ConversationHandler` with the states of line 52
(`CHOOSE_ACTION, GET_RECOMMENDATION_INPUT, GET_KEYWORD_SEARCH_INPUT,
WEB_SEARCH_PROMPT = range(4)`), entry point and sole fallback
`CommandHandler("start", start)`, plus two application-level
`CallbackQueryHandler`s (patterns `^price_check:` and `^back_to_tool:`).
Per-user `context.user_data` holds the string `last_query` and one message
snapshot per `tool_<name>` key; the key namespaces are disjoint, so we model
the dictionary as a structure with a `last_query` field and an association
list of card snapshots. -/

/-- Reply-markup shapes occurring in `main.py` messages. -/
inductive Markup where
  | noMarkup
  | inlinePrice (tool_name : String)
  | inlineBack (tool_name : String)
  | replyMenu (rows : List String)
  | replyRemove
deriving DecidableEq, Repr

/-- A rendered message: text plus controls — what `price_check_callback`
snapshots (`query.message.text`, `query.message.reply_markup`) and what
`back_to_tool_callback` restores. -/
structure Card where
  text : String
  markup : Markup
deriving DecidableEq, Repr

/-- `context.user_data` for one user. -/
structure UserData where
  last_query : Option String
  cards : List (String × Card)
deriving DecidableEq, Repr

/-- The `ConversationHandler` states of `main.py` line 52. -/
inductive ConvState where
  | CHOOSE_ACTION
  | GET_RECOMMENDATION_INPUT
  | GET_KEYWORD_SEARCH_INPUT
  | WEB_SEARCH_PROMPT
deriving DecidableEq, Repr

/-- One user's session: conversation state plus `user_data`. -/
structure Session where
  state : ConvState
  ud : UserData
deriving DecidableEq, Repr

/-- Observable chat output of one dispatched update: a sent message or an
in-place edit of the callback's message. -/
inductive Out where
  | send (text : String) (markup : Markup)
  | edit (card : Card)
deriving DecidableEq, Repr

/-- One inbound update: a `/command`, a free-text message, or an inline
callback carrying its `callback_data` and the message it is attached to. -/
inductive Event where
  | command (name : String)
  | message (text : String)
  | callback (data : String) (msg : Card)
deriving DecidableEq, Repr

/-- The process environment and external capabilities `main.py` reads. -/
structure Env where
  groq_api_key : Option String
  google_search_api_key : Option String
  custom_search_engine_id : Option String
  rerank_llm : String → GroqOutcome
  parse_best_matches : String → ParseOutcome
  price_llm : String → GroqOutcome
  summ_llm : String → GroqOutcome
  http : String → WebOutcome

/-- Menu keyboard of `start` (`main.py` 210). -/
def mainMenuRows : List String := ["🧠 המלצה חכמה", "🔍 חיפוש מהיר"]

/-- Greeting of `start` (`main.py` 211). -/
def greetingMsg : String :=
  "👋 שלום!\nאני בוט המלצות חכם. תאר לי מה אתה צריך ואמצא לך את הכלי המתאים ביותר."

/-- The messages `start` sends. -/
def start_outputs : List Out := [.send greetingMsg (.replyMenu mainMenuRows)]

/-- `start` (`main.py` 202–212): greets with the main menu and moves to
`CHOOSE_ACTION`; `context.user_data` is untouched (the MongoDB upsert is
external and touches no session data). -/
def start_handler (ud : UserData) : UserData × ConvState × List Out :=
  (ud, .CHOOSE_ACTION, start_outputs)

/-- `choose_action` (`main.py` 214–222). -/
def choose_action (ud : UserData) (text : String) : UserData × ConvState × List Out :=
  if text = "🧠 המלצה חכמה" then
    (ud, .GET_RECOMMENDATION_INPUT,
      [.send "מעולה! תאר לי במילים שלך, כמה שיותר בפירוט, איזה כלי אתה מחפש..." .replyRemove])
  else if text = "🔍 חיפוש מהיר" then
    (ud, .GET_KEYWORD_SEARCH_INPUT,
      [.send "בטח, הקלד מילת מפתח אחת לחיפוש מהיר..." .replyRemove])
  else (ud, .CHOOSE_ACTION, [])

/-- The card rendered by `send_tool_recommendation` (`main.py` 175–179):
tool text plus a `price_check:<name>` button. -/
def tool_card (t : ToolRecord) : Card :=
  { text := "🧠 ***" ++ t.name ++ "***\n*" ++ t.description ++ "*\n🔗 [קישור לכלי]("
      ++ t.url ++ ")\n"
    markup := .inlinePrice t.name }

/-- Follow-up keyboard offered after results (`main.py` 240, 277). -/
def followUpRows : List String := ["🌐 חפש ב-allaitools.dev", "🏠 חזרה לתפריט הראשי"]

/-- Follow-up question sent after results (`main.py` 241–244, 278–281). -/
def followUpOut : Out :=
  .send "תרצה שאבצע חיפוש ממוקד במאגר הכלים של allaitools.dev?" (.replyMenu followUpRows)

/-- `get_recommendation` (`main.py` 224–246): stores `last_query`, runs the
reranker over the full catalog serialization, renders a card per resolvable
returned name (unresolvable names silently skipped), and offers the follow-up
menu. -/
def get_recommendation (env : Env) (tools_db : List ToolRecord)
    (ud : UserData) (text : String) : UserData × ConvState × List Out :=
  let ud' : UserData := { ud with last_query := some text }
  let names := get_semantic_recommendation env.groq_api_key env.rerank_llm
    env.parse_best_matches (jsonDumps tools_db) text
  let resultOuts : List Out :=
    if names.isEmpty then [.send "לא מצאתי התאמה טובה במאגר שלי." .noMarkup]
    else
      .send "✨ אלו הכלים שמצאתי שהכי מתאימים לבקשה שלך:" .noMarkup ::
        names.filterMap (fun n =>
          (find_tool_by_name tools_db n).map (fun t =>
            Out.send (tool_card t).text (tool_card t).markup))
  (ud', .WEB_SEARCH_PROMPT,
    .send "קיבלתי. מנתח את הבקשה שלך מול המאגר שלי... 🤖" .noMarkup ::
      resultOuts ++ [followUpOut])

/-- `keyword_search` (`main.py` 265–283): stores `last_query`, runs the
lexical retriever on the single keyword, renders a card per match, and offers
the follow-up menu. -/
def keyword_search (tools_db : List ToolRecord) (ud : UserData)
    (keyword : String) : UserData × ConvState × List Out :=
  let ud' : UserData := { ud with last_query := some keyword }
  let matched := find_tools_in_db tools_db [keyword]
  let resultOuts : List Out :=
    if matched.isEmpty then
      [.send "לא מצאתי כלים התואמים למילת המפתח הזו במאגר שלי." .noMarkup]
    else
      .send ("🔍 תוצאות חיפוש עבור \x27" ++ keyword ++ "\x27:") .noMarkup ::
        matched.map (fun t => Out.send (tool_card t).text (tool_card t).markup)
  (ud', .WEB_SEARCH_PROMPT,
    .send ("מחפש כלים עם המילה \x27" ++ keyword ++ "\x27 במאגר שלי...") .noMarkup ::
      resultOuts ++ [followUpOut])

/-- Error reply of `web_search_prompt_handler` when no last query is stored
(`main.py` 253). -/
def forgotQueryMsg : String := "אירעה שגיאה, לא זוכר מה חיפשנו. נחזור לתפריט הראשי."

/-- `web_search_prompt_handler` (`main.py` 248–263): on the web-search choice,
an empty/missing `last_query` aborts with an error and re-enters `start`;
otherwise the scoped web search runs and its summary is sent; every path ends
in `start`. -/
def web_search_prompt_handler (env : Env) (ud : UserData) (choice : String) :
    UserData × ConvState × List Out :=
  if choice = "🌐 חפש ב-allaitools.dev" then
    let last_query := ud.last_query.getD ""
    if last_query = "" then
      (ud, .CHOOSE_ACTION, .send forgotQueryMsg .replyRemove :: start_outputs)
    else
      let results := perform_live_web_search env.google_search_api_key
        env.custom_search_engine_id env.http last_query
      let summary := summarize_search_results env.summ_llm results last_query
      (ud, .CHOOSE_ACTION,
        .send ("בסדר, מבצע חיפוש ממוקד ב-allaitools.dev עבור \x27" ++ last_query ++ "\x27...")
            .replyRemove
          :: .send summary .noMarkup :: start_outputs)
  else (ud, .CHOOSE_ACTION, start_outputs)

/-- `price_check_callback` (`main.py` 181–190): snapshots the callback's
message under `tool_<name>` before overwriting it, shows an interim edit, then
the price view with a `back_to_tool:<name>` button.  The conversation state is
untouched (the handler lives outside the `ConversationHandler`). -/
def price_check_step (env : Env) (s : Session) (tool_name : String) (msg : Card) :
    Session × List Out :=
  let ud' : UserData := { s.ud with cards := ("tool_" ++ tool_name, msg) :: s.ud.cards }
  let price_info := get_price_from_groq env.groq_api_key env.price_llm tool_name
  (⟨s.state, ud'⟩,
    [.edit ⟨"בודק מחיר עדכני עבור *" ++ tool_name ++ "*...", .noMarkup⟩,
     .edit ⟨"💰 מידע על תמחור עבור *" ++ tool_name ++ "*:\n\n" ++ price_info,
            .inlineBack tool_name⟩])

/-- Error text of `back_to_tool_callback` when no snapshot exists
(`main.py` 200). -/
def notFoundMsg : String := "אירעה שגיאה. לא נמצא המידע המקורי."

/-- `back_to_tool_callback` (`main.py` 192–200): restores the snapshot stored
under `tool_<name>` verbatim, or reports that the original information was not
found. -/
def back_to_tool_step (s : Session) (tool_name : String) : Session × List Out :=
  match s.ud.cards.lookup ("tool_" ++ tool_name) with
  | some c => (s, [.edit c])
  | none => (s, [.edit ⟨notFoundMsg, .noMarkup⟩])

/-- Free-text routing by conversation state (the `states=` table of
`conv_handler`): the `WEB_SEARCH_PROMPT` state accepts exactly the two
anchored-regex follow-up choices and ignores everything else. -/
def dispatch_message (env : Env) (tools_db : List ToolRecord) (ud : UserData) :
    ConvState → String → Session × List Out
  | .CHOOSE_ACTION, text =>
    let r := choose_action ud text
    (⟨r.2.1, r.1⟩, r.2.2)
  | .GET_RECOMMENDATION_INPUT, text =>
    let r := get_recommendation env tools_db ud text
    (⟨r.2.1, r.1⟩, r.2.2)
  | .GET_KEYWORD_SEARCH_INPUT, text =>
    let r := keyword_search tools_db ud text
    (⟨r.2.1, r.1⟩, r.2.2)
  | .WEB_SEARCH_PROMPT, text =>
    if text = "🌐 חפש ב-allaitools.dev" then
      let r := web_search_prompt_handler env ud text
      (⟨r.2.1, r.1⟩, r.2.2)
    else if text = "🏠 חזרה לתפריט הראשי" then
      (⟨.CHOOSE_ACTION, ud⟩, start_outputs)
    else (⟨.WEB_SEARCH_PROMPT, ud⟩, [])

/-- Callback-query routing (the two `CallbackQueryHandler` registrations,
patterns `^price_check:` and `^back_to_tool:`, names parsed with
`split(':', 1)[1]`). -/
def dispatch_callback (env : Env) (s : Session) (data : String) (msg : Card) :
    Session × List Out :=
  if strStartsWith "price_check:" data then
    price_check_step env s (stringAfterColon data) msg
  else if strStartsWith "back_to_tool:" data then
    back_to_tool_step s (stringAfterColon data)
  else (s, [])

/-- One dispatched update, following the handler registration of `main()`
(`main.py` 316–333): `/start` is the conversation entry point and its only
fallback; any other command matches no session-mutating handler (`/stats`
reads only MongoDB); free text is routed by conversation state; callback
queries are routed by `callback_data` pattern. -/
def dispatch (env : Env) (tools_db : List ToolRecord) (s : Session) :
    Event → Session × List Out
  | .command c =>
    if c = "start" then (⟨.CHOOSE_ACTION, s.ud⟩, start_outputs) else (s, [])
  | .message text => dispatch_message env tools_db s.ud s.state text
  | .callback data msg => dispatch_callback env s data msg

/-- A whole conversation: fold of `dispatch` over an event trace. -/
def run (env : Env) (tools_db : List ToolRecord) (s : Session) (es : List Event) :
    Session :=
  es.foldl (fun s e => (dispatch env tools_db s e).1) s

/-! ## Concrete fixtures for counterexamples and witnesses -/

/-- A minimal catalog record with only a name. -/
def demoTool (n : String) : ToolRecord := ⟨n, "", "", "", []⟩

/-- A 16-record catalog with pairwise distinct names: one more record than the
spec's vector-retrieval bound of 15. -/
def demo_catalog16 : List ToolRecord :=
  [demoTool "T01", demoTool "T02", demoTool "T03", demoTool "T04",
   demoTool "T05", demoTool "T06", demoTool "T07", demoTool "T08",
   demoTool "T09", demoTool "T10", demoTool "T11", demoTool "T12",
   demoTool "T13", demoTool "T14", demoTool "T15", demoTool "T16"]

/-- An environment whose external capabilities all fail and whose credentials
are all unset. -/
def env0 : Env where
  groq_api_key := none
  google_search_api_key := none
  custom_search_engine_id := none
  rerank_llm := fun _ => .failure
  parse_best_matches := fun _ => .parseError
  price_llm := fun _ => .failure
  summ_llm := fun _ => .failure
  http := fun _ => .requestError

/-- A rendered tool card, as stored by a price check. -/
def card0 : Card := ⟨"🧠 ***Canva***\n*Design tool*\n", .inlinePrice "Canva"⟩

/-- A session awaiting the follow-up choice, with a stored query and a stored
card snapshot. -/
def s0 : Session := ⟨.WEB_SEARCH_PROMPT, ⟨some "query", [("tool_Canva", card0)]⟩⟩

/-- The single record of the spec's end-to-end scenario A. -/
def noteApp : ToolRecord :=
  ⟨"NoteApp", "productivity", "note taking app", "https://example.com", ["notes", "writing"]⟩

/-- A one-record catalog for the lexical-retrieval witness. -/
def c3_db : List ToolRecord := [noteApp]

/-- A two-record catalog with names distinct under case-insensitive compare. -/
def c6_db : List ToolRecord :=
  [⟨"Canva", "design", "", "", []⟩, ⟨"Figma", "design", "", "", []⟩]

/-- A record with every field populated, for the embedding-build witness. -/
def c7_tool : ToolRecord := ⟨"A", "cat", "desc", "http://u", ["k1", "k2"]⟩

/-! ## Helper lemmas: substring machinery -/

theorem listStartsWith_self_append (a b : List Char) :
    listStartsWith a (a ++ b) = true := by
  induction a with
  | nil => rfl
  | cons c cs ih => simp [listStartsWith, ih]

theorem listStartsWith_append_extend {p a : List Char} (b : List Char)
    (h : listStartsWith p a = true) : listStartsWith p (a ++ b) = true := by
  induction p generalizing a with
  | nil => rfl
  | cons c cs ih =>
    cases a with
    | nil => simp [listStartsWith] at h
    | cons d ds =>
      simp only [listStartsWith, Bool.and_eq_true, beq_iff_eq] at h
      simp only [List.cons_append, listStartsWith, Bool.and_eq_true, beq_iff_eq]
      exact ⟨h.1, ih h.2⟩

theorem listContains_nil_pat (l : List Char) : listContains l [] = true := by
  cases l <;> simp [listContains, listStartsWith, List.isEmpty]

theorem listContains_of_startsWith {l p : List Char}
    (h : listStartsWith p l = true) : listContains l p = true := by
  cases l with
  | nil =>
    cases p with
    | nil => rfl
    | cons c cs => simp [listStartsWith] at h
  | cons c rest => simp [listContains, h]

theorem listContains_append_left {b p : List Char} (a : List Char)
    (h : listContains b p = true) : listContains (a ++ b) p = true := by
  induction a with
  | nil => simpa using h
  | cons c cs ih => simp [listContains, ih]

theorem listContains_append_right {a p : List Char} (b : List Char)
    (h : listContains a p = true) : listContains (a ++ b) p = true := by
  induction a with
  | nil =>
    have hp : p = [] := by
      cases p with
      | nil => rfl
      | cons x xs => simp [listContains, List.isEmpty] at h
    subst hp
    exact listContains_nil_pat _
  | cons c cs ih =>
    simp only [listContains, Bool.or_eq_true] at h
    rcases h with h | h
    · exact listContains_of_startsWith (by
        simpa [List.cons_append] using listStartsWith_append_extend b h)
    · simp [listContains, ih h]

theorem listContains_self (l : List Char) : listContains l l = true :=
  listContains_of_startsWith (by simpa using listStartsWith_self_append l [])

theorem strContains_append_left (a b p : String) (h : strContains b p = true) :
    strContains (a ++ b) p = true := by
  unfold strContains at *
  rw [String.data_append]
  exact listContains_append_left a.data h

theorem strStartsWith_self_append (p s : String) :
    strStartsWith p (p ++ s) = true := by
  unfold strStartsWith
  rw [String.data_append]
  exact listStartsWith_self_append _ _

/-! ## Helper lemmas: callback-data routing -/

theorem afterColon_append {l : List Char} (hl : ':' ∉ l) (r : List Char) :
    afterColon (l ++ ':' :: r) = r := by
  induction l with
  | nil => simp [afterColon]
  | cons c cs ih =>
    have hc : (c == ':') = false := by
      simp only [beq_eq_false_iff_ne, ne_eq]
      intro h
      exact hl (h ▸ List.mem_cons_self c cs)
    simp only [List.cons_append, afterColon, hc, Bool.false_eq_true, if_false]
    exact ih (fun h => hl (List.mem_cons_of_mem _ h))

theorem stringAfterColon_price (n : String) :
    stringAfterColon ("price_check:" ++ n) = n := by
  obtain ⟨d⟩ := n
  show String.mk (afterColon ("price_check:" ++ String.mk d).data) = String.mk d
  rw [String.data_append]
  have h1 : ("price_check:").data = "price_check".data ++ [':'] := rfl
  rw [h1, List.append_assoc]
  exact congrArg String.mk (afterColon_append (by decide) d)

theorem stringAfterColon_back (n : String) :
    stringAfterColon ("back_to_tool:" ++ n) = n := by
  obtain ⟨d⟩ := n
  show String.mk (afterColon ("back_to_tool:" ++ String.mk d).data) = String.mk d
  rw [String.data_append]
  have h1 : ("back_to_tool:").data = "back_to_tool".data ++ [':'] := rfl
  rw [h1, List.append_assoc]
  exact congrArg String.mk (afterColon_append (by decide) d)

theorem not_price_of_back (n : String) :
    strStartsWith "price_check:" ("back_to_tool:" ++ n) = false := by
  unfold strStartsWith
  rw [String.data_append]
  rfl

/-! ## Helper lemmas: the reranker payload mentions the whole catalog -/

theorem jsonList_mention {s : String} {parts : List String} (h : s ∈ parts) :
    listContains (jsonList parts).data s.data = true := by
  induction parts with
  | nil => cases h
  | cons x rest ih =>
    cases h with
    | head =>
      cases rest with
      | nil => simpa [jsonList] using listContains_self s.data
      | cons y ys =>
        rw [show jsonList (s :: y :: ys) = s ++ ", " ++ jsonList (y :: ys) from rfl]
        rw [String.data_append, String.data_append]
        exact listContains_append_right _ (listContains_append_right _ (listContains_self s.data))
    | tail _ hmem =>
      cases rest with
      | nil => cases hmem
      | cons y ys =>
        rw [show jsonList (x :: y :: ys) = x ++ ", " ++ jsonList (y :: ys) from rfl]
        rw [String.data_append]
        exact listContains_append_left _ (ih hmem)

theorem mention_jsonDumps {t : ToolRecord} {ts : List ToolRecord} (h : t ∈ ts) :
    strContains (jsonDumps ts) (toolJson t) = true := by
  unfold jsonDumps strContains
  rw [String.data_append, String.data_append]
  exact listContains_append_right _
    (listContains_append_left _ (jsonList_mention (List.mem_map_of_mem _ h)))

theorem mentions_payload_of_mem {t : ToolRecord} {ts : List ToolRecord}
    (u : String) (h : t ∈ ts) :
    mentions (user_prompt u (jsonDumps ts)) t = true := by
  unfold mentions user_prompt
  exact strContains_append_left _ _ _ (mention_jsonDumps h)

theorem payload_contains_catalog (u d : String) :
    strContains (user_prompt u d) d = true := by
  unfold user_prompt
  exact strContains_append_left _ _ _ (by unfold strContains; exact listContains_self d.data)

/-! ## Helper lemma: uniqueness of `find_tool_by_name` -/

theorem find_tool_unique {tools_db : List ToolRecord} {name : String}
    (hnd : tools_db.Pairwise (fun a b => strLower a.name ≠ strLower b.name))
    {t : ToolRecord} (ht : t ∈ tools_db) (heq : strLower t.name = strLower name) :
    find_tool_by_name tools_db name = some t := by
  induction tools_db with
  | nil => cases ht
  | cons h rest ih =>
    rw [List.pairwise_cons] at hnd
    rcases List.mem_cons.mp ht with rfl | hmem
    · unfold find_tool_by_name
      rw [List.find?_cons_of_pos]
      simpa using heq
    · unfold find_tool_by_name
      rw [List.find?_cons_of_neg]
      · exact ih hnd.2 hmem
      · simp only [beq_iff_eq]
        intro hcontra
        exact hnd.1 t hmem (by rw [hcontra, heq])

/-- C6: `find_tool_by_name` compares names case-insensitively and returns a
matching catalog record or none; when the catalog's names are pairwise
distinct under case-insensitive comparison, it returns exactly the record
whose lowered name equals the lowered query when one exists, and `none`
otherwise. -/
theorem C6_find_tool_by_name (tools_db : List ToolRecord) (name : String)
    (hnd : tools_db.Pairwise (fun a b => strLower a.name ≠ strLower b.name)) :
    (∀ t, find_tool_by_name tools_db name = some t →
        t ∈ tools_db ∧ strLower t.name = strLower name) ∧
    (find_tool_by_name tools_db name = none →
        ∀ t ∈ tools_db, strLower t.name ≠ strLower name) ∧
    (∀ t ∈ tools_db, strLower t.name = strLower name →
        find_tool_by_name tools_db name = some t) := by
  refine ⟨?_, ?_, ?_⟩
  · intro t h
    refine ⟨List.mem_of_find?_eq_some h, ?_⟩
    have := List.find?_some h
    simpa using this
  · intro h t ht
    rw [find_tool_by_name, List.find?_eq_none] at h
    have := h t ht
    simpa using this
  · intro t ht heq
    exact find_tool_unique hnd ht heq

/-- C6 witness: on a concrete catalog, the query `"CANVA"` resolves to the
record named `"Canva"`. -/
theorem C6_witness :
    find_tool_by_name c6_db "CANVA" = some ⟨"Canva", "design", "", "", []⟩ :=
  (C6_find_tool_by_name c6_db "CANVA" (by decide)).2.2
    ⟨"Canva", "design", "", "", []⟩ (by decide) (by decide)

/-- C2 counterexample: the claim's "no candidates supplied" clause fails on
the code.  With an empty catalog (`tools_db_string = "[]"`), a configured
credential and a well-behaved external call, `get_semantic_recommendation`
still makes the call and returns its parsed `best_matches` — a non-empty
list — instead of returning empty immediately. -/
theorem C2_counterexample :
    get_semantic_recommendation (some "k") (fun _ => .success "ok")
      (fun _ => .parsed (some ["SomeTool"])) (jsonDumps []) "q" = ["SomeTool"] ∧
    (["SomeTool"] : List String) ≠ [] := ⟨rfl, by decide⟩

/-- C2 (amended): for every query, the reranker returns an empty list and
never raises whenever the external call fails (transport error or timeout),
the response fails to parse as the expected structure, the parsed object has
no `best_matches` key, or the API credential is absent — and with an absent
credential the result is empty independently of the external capability,
i.e. without making the call.  (There is no empty-candidate guard: the call
is made even for an empty catalog, see the counterexample.) -/
theorem C2_reranker_fails_soft (groq_api_key : Option String)
    (llm : String → GroqOutcome) (parse : String → ParseOutcome)
    (tools_db_string user_text : String) :
    (∀ llm' parse', get_semantic_recommendation none llm' parse' tools_db_string user_text
        = []) ∧
    (falsyStr groq_api_key = true →
      get_semantic_recommendation groq_api_key llm parse tools_db_string user_text = []) ∧
    (llm (user_prompt user_text tools_db_string) = .failure →
      get_semantic_recommendation groq_api_key llm parse tools_db_string user_text = []) ∧
    (∀ content, llm (user_prompt user_text tools_db_string) = .success content →
      parse content = .parseError →
      get_semantic_recommendation groq_api_key llm parse tools_db_string user_text = []) ∧
    (∀ content, llm (user_prompt user_text tools_db_string) = .success content →
      parse content = .parsed none →
      get_semantic_recommendation groq_api_key llm parse tools_db_string user_text = []) := by
  refine ⟨fun llm' parse' => rfl, ?_, ?_, ?_, ?_⟩
  · intro h
    simp [get_semantic_recommendation, h]
  · intro h
    unfold get_semantic_recommendation
    split
    · rfl
    · rw [h]
  · intro content hc hp
    simp [get_semantic_recommendation, hc, hp]
  · intro content hc hp
    simp [get_semantic_recommendation, hc, hp]

/-- C2 witness: with an empty-string credential (falsy in Python) the
reranker returns empty. -/
theorem C2_witness :
    get_semantic_recommendation (some "") (fun _ => GroqOutcome.failure)
      (fun _ => ParseOutcome.parseError) "[]" "q" = [] :=
  (C2_reranker_fails_soft (some "") (fun _ => GroqOutcome.failure)
    (fun _ => ParseOutcome.parseError) "[]" "q").2.1 rfl

/-- Helper: the typed `summarize_search_results` is the restriction of
`summarize_search_results_raw` to well-formed result lists — on a list of
objects the raw model returns exactly the typed model's message, and never
`.exn`. -/
theorem summarize_search_results_raw_agrees (summ_llm : String → GroqOutcome)
    (results : List SearchItem) (q : String) :
    summarize_search_results_raw summ_llm
        (.list (results.map pyItemOfSearchItem)) q =
      .ok (summarize_search_results summ_llm results q) := by
  have hid : ∀ l : List SearchItem,
      (l.map pyItemOfSearchItem).map searchItemOfPy = l := by
    intro l
    induction l with
    | nil => rfl
    | cons r rs ih =>
      obtain ⟨t, s, li⟩ := r
      simp [pyItemOfSearchItem, searchItemOfPy, ih]
  have hall : (results.map pyItemOfSearchItem).all PyItem.isDict = true := by
    simp [List.all_map, pyItemOfSearchItem, PyItem.isDict, Function.comp]
  have hemp : (results.map pyItemOfSearchItem).isEmpty = results.isEmpty := by
    cases results <;> rfl
  unfold summarize_search_results_raw summarize_search_results
  simp only [PyItemsVal.isFalsy, hemp, hall, hid, eq_self_iff_true, if_true]
  by_cases h : results.isEmpty = true
  · rw [if_pos h, if_pos h]
  · rw [if_neg h, if_neg h]
    cases summ_llm (summaryUserContent results q) <;> rfl

/-- C8 counterexample: an exception DOES propagate from the fallback
recommender.  With configured credentials and a 200 response whose decoded
JSON body is not an object, `perform_live_web_search` raises an uncaught
`AttributeError` (`search_results.get` on a non-object, `main.py` 88, while
the `except` catches only `RequestException`); and `summarize_search_results`
on a truthy `items` list containing a non-object entry raises in the snippet
comprehension (`main.py` 98), which runs before the `try`. -/
theorem C8_counterexample :
    perform_live_web_search_raw (some "k") (some "cx")
      (fun _ => WebHttpOutcome.ok PyBody.nonObj) "q" = WebReturn.exn ∧
    summarize_search_results_raw (fun _ => GroqOutcome.success "summary")
      (PyItemsVal.list [PyItem.nonDict]) "q" = SummarizeReturn.exn := ⟨rfl, rfl⟩

/-- C8 (amended): the fallback recommender fails soft in its handled failure
modes — missing search credentials, any `requests` request error (HTTP error
statuses and undecodable bodies included), and a decoded object body without
an `items` key all yield an empty result list; a falsy `items` value yields
the fixed no-results message; a summarization-call exception over a
well-formed result list yields the explicit could-not-complete message.
But exceptions DO propagate to the caller in two unhandled cases: a 200
response whose decoded JSON body is not an object, and a truthy `items`
value that is not a list of objects. -/
theorem C8_fallback_fails_soft_handled (gkey cx : Option String)
    (http : String → WebHttpOutcome) (summ_llm : String → GroqOutcome)
    (query : String) (v : PyItemsVal) (elems : List PyItem) :
    ((falsyStr gkey || falsyStr cx) = true →
      perform_live_web_search_raw gkey cx http query = .ok (.list [])) ∧
    (http query = .requestError →
      perform_live_web_search_raw gkey cx http query = .ok (.list [])) ∧
    (http query = .ok (.obj none) →
      perform_live_web_search_raw gkey cx http query = .ok (.list [])) ∧
    ((falsyStr gkey || falsyStr cx) = false → http query = .ok .nonObj →
      perform_live_web_search_raw gkey cx http query = .exn) ∧
    (v.isFalsy = true →
      summarize_search_results_raw summ_llm v query = .ok noResultsMsg) ∧
    (elems ≠ [] → elems.all PyItem.isDict = true →
      summ_llm (summaryUserContent (elems.map searchItemOfPy) query) = .failure →
      summarize_search_results_raw summ_llm (.list elems) query = .ok summErrorMsg) ∧
    (∀ content, elems ≠ [] → elems.all PyItem.isDict = true →
      summ_llm (summaryUserContent (elems.map searchItemOfPy) query) = .success content →
      summarize_search_results_raw summ_llm (.list elems) query = .ok content) ∧
    (elems ≠ [] → elems.all PyItem.isDict = false →
      summarize_search_results_raw summ_llm (.list elems) query = .exn) ∧
    (summarize_search_results_raw summ_llm .truthyNonList query = .exn) := by
  refine ⟨?_, ?_, ?_, ?_, ?_, ?_, ?_, ?_, rfl⟩
  · intro h
    simp [perform_live_web_search_raw, h]
  · intro h
    unfold perform_live_web_search_raw
    split
    · rfl
    · rw [h]
  · intro h
    unfold perform_live_web_search_raw
    split
    · rfl
    · rw [h]
  · intro hf h
    simp [perform_live_web_search_raw, hf, h]
  · intro h
    simp [summarize_search_results_raw, h]
  · intro hne hall hfail
    unfold summarize_search_results_raw
    rw [if_neg (by simp [PyItemsVal.isFalsy, List.isEmpty_iff, hne])]
    dsimp only
    rw [hall, if_pos rfl, hfail]
  · intro content hne hall hsucc
    unfold summarize_search_results_raw
    rw [if_neg (by simp [PyItemsVal.isFalsy, List.isEmpty_iff, hne])]
    dsimp only
    rw [hall, if_pos rfl, hsucc]
  · intro hne hall
    unfold summarize_search_results_raw
    rw [if_neg (by simp [PyItemsVal.isFalsy, List.isEmpty_iff, hne])]
    dsimp only
    rw [hall, if_neg (by simp)]

/-- C8 witness: a concrete request error yields the empty list, and a
concrete summarization failure over a one-object result list yields the
fixed error message. -/
theorem C8_witness :
    perform_live_web_search_raw none none (fun _ => WebHttpOutcome.requestError) "q"
      = WebReturn.ok (PyItemsVal.list []) ∧
    summarize_search_results_raw (fun _ => GroqOutcome.failure)
      (PyItemsVal.list [PyItem.dict none none none]) "q"
      = SummarizeReturn.ok summErrorMsg :=
  ⟨(C8_fallback_fails_soft_handled none none (fun _ => WebHttpOutcome.requestError)
      (fun _ => GroqOutcome.failure) "q" (PyItemsVal.list []) []).2.1 rfl,
   (C8_fallback_fails_soft_handled none none (fun _ => WebHttpOutcome.requestError)
      (fun _ => GroqOutcome.failure) "q" (PyItemsVal.list [])
      [PyItem.dict none none none]).2.2.2.2.2.1 (by decide) (by decide) rfl⟩

/-- C10: with an empty web-search result list, `summarize_search_results`
returns the fixed no-relevant-results message for every behaviour of the LLM
capability (so without invoking it); and with no stored last query, the
follow-up web-search choice produces the explicit error message followed by
the main-menu greeting, with a result independent of every external
capability (so no web search is performed). -/
theorem C10_short_circuits (env : Env) (summ_llm : String → GroqOutcome)
    (ud : UserData) (q : String) :
    summarize_search_results summ_llm [] q = noResultsMsg ∧
    (ud.last_query.getD "" = "" →
      web_search_prompt_handler env ud "🌐 חפש ב-allaitools.dev" =
        (ud, .CHOOSE_ACTION, .send forgotQueryMsg .replyRemove :: start_outputs)) := by
  refine ⟨rfl, ?_⟩
  intro h
  simp [web_search_prompt_handler, h]

/-- C10 witness: a fresh user-data record has no last query, and the
web-search choice then yields exactly the error message plus the menu. -/
theorem C10_witness :
    web_search_prompt_handler env0 ⟨none, []⟩ "🌐 חפש ב-allaitools.dev" =
      (⟨none, []⟩, .CHOOSE_ACTION, .send forgotQueryMsg .replyRemove :: start_outputs) :=
  (C10_short_circuits env0 (fun _ => GroqOutcome.failure) ⟨none, []⟩ "q").2 rfl

/-- C1 counterexample: the payload of the reranking call is NOT restricted to
a bounded candidate set.  For a 16-record catalog with pairwise distinct
records, every record's serialization occurs in the payload, so no candidate
list of at most 15 records can account for everything the payload contains —
there is no candidate-generation stage in front of the call. -/
theorem C1_counterexample :
    ¬ ∃ C : List ToolRecord, C.length ≤ 15 ∧
      ∀ t ∈ demo_catalog16,
        mentions (user_prompt "אני צריך כלי עיצוב" (jsonDumps demo_catalog16)) t = true →
        t ∈ C := by
  rintro ⟨C, hlen, hC⟩
  have hsub : demo_catalog16 ⊆ C := fun t ht =>
    hC t ht (mentions_payload_of_mem _ ht)
  have hnd : demo_catalog16.Nodup := by decide
  have h16 : demo_catalog16.length = 16 := by decide
  have hfin : demo_catalog16.toFinset ⊆ C.toFinset := fun a ha =>
    List.mem_toFinset.mpr (hsub (List.mem_toFinset.mp ha))
  have hcard : demo_catalog16.toFinset.card ≤ C.toFinset.card :=
    Finset.card_le_card hfin
  rw [List.toFinset_card_of_nodup hnd, h16] at hcard
  have := le_trans hcard (List.toFinset_card_le C)
  omega

/-- C1 (amended): in smart-recommendation mode the payload sent to the
external semantic-ranking capability contains the serialization of the
ENTIRE catalog — every record's JSON rendering occurs in it — and
`get_semantic_recommendation` consults the external capability only at that
full-catalog payload; no candidate-generation stage restricts the input of
the reranking call. -/
theorem C1_payload_is_entire_catalog (tools_db : List ToolRecord)
    (user_text : String) (groq_api_key : Option String)
    (parse : String → ParseOutcome) (llm llm' : String → GroqOutcome) :
    strContains (user_prompt user_text (jsonDumps tools_db)) (jsonDumps tools_db)
      = true ∧
    (∀ t ∈ tools_db, mentions (user_prompt user_text (jsonDumps tools_db)) t = true) ∧
    (llm (user_prompt user_text (jsonDumps tools_db)) =
        llm' (user_prompt user_text (jsonDumps tools_db)) →
      get_semantic_recommendation groq_api_key llm parse (jsonDumps tools_db) user_text =
      get_semantic_recommendation groq_api_key llm' parse (jsonDumps tools_db) user_text) := by
  refine ⟨payload_contains_catalog _ _, fun t ht => mentions_payload_of_mem _ ht, ?_⟩
  intro h
  unfold get_semantic_recommendation
  rw [h]

/-- C1 witness: a concrete record of the 16-record catalog is mentioned in
the payload. -/
theorem C1_witness :
    mentions (user_prompt "אני צריך כלי עיצוב" (jsonDumps demo_catalog16))
      (demoTool "T01") = true :=
  (C1_payload_is_entire_catalog demo_catalog16 "אני צריך כלי עיצוב" none
      (fun _ => ParseOutcome.parseError) (fun _ => GroqOutcome.failure)
      (fun _ => GroqOutcome.failure)).2.1 (demoTool "T01") (by decide)

/-! ## Helper lemmas: `List.enumFrom` -/

theorem snd_mem_of_mem_enumFrom {α : Type u} {l : List α} :
    ∀ {n : Nat} {p : Nat × α}, p ∈ l.enumFrom n → p.2 ∈ l := by
  induction l with
  | nil => intro n p h; cases h
  | cons a as ih =>
    intro n p h
    cases h with
    | head => exact List.mem_cons_self _ _
    | tail _ h => exact List.mem_cons_of_mem _ (ih h)

theorem enumFrom_get? {α : Type u} :
    ∀ (l : List α) (n i : Nat),
      (l.enumFrom n).get? i = (l.get? i).map (fun a => (n + i, a)) := by
  intro l
  induction l with
  | nil => intro n i; simp
  | cons a as ih =>
    intro n i
    cases i with
    | zero => simp [List.enumFrom]
    | succ i =>
      simp only [List.enumFrom, List.get?, ih]
      cases as.get? i with
      | none => simp
      | some x => simp; omega

theorem mem_enum_of_get? {α : Type u} {l : List α} {i : Nat} {a : α}
    (h : l.get? i = some a) : (i, a) ∈ l.enum := by
  have := enumFrom_get? l 0 i
  rw [h] at this
  simp only [Option.map_some, Nat.zero_add] at this
  exact List.get?_mem this

/-- C3: the lexical retriever (modelled from the spec, since
`find_tools_in_db` is absent from the sources) returns at most 3 records;
every returned record is a catalog record of nonzero total score; every
catalog record of nonzero total score survives, with its catalog index, into
the sorted candidate list; that list is ordered by strictly descending score
with ties broken by catalog order; and scores accumulate additively across
query keywords.  All functions involved are total, so retrieval completes
without raising. -/
theorem C3_lexical_retrieval (tools_db : List ToolRecord) (keywords : List String) :
    (find_tools_in_db tools_db keywords).length ≤ 3 ∧
    (∀ t ∈ find_tools_in_db tools_db keywords,
      t ∈ tools_db ∧ total_score keywords t ≠ 0) ∧
    (∀ i t, tools_db.get? i = some t → total_score keywords t ≠ 0 →
      (i, t, total_score keywords t) ∈ sorted_scored_tools tools_db keywords) ∧
    (sorted_scored_tools tools_db keywords).Pairwise
      (fun a b => b.2.2 < a.2.2 ∨ (a.2.2 = b.2.2 ∧ a.1 ≤ b.1)) ∧
    (∀ kw kws t, total_score (kw :: kws) t = keyword_score t kw + total_score kws t) := by
  refine ⟨?_, ?_, ?_, ?_, ?_⟩
  · unfold find_tools_in_db
    rw [List.length_map]
    exact List.length_take_le _ _
  · intro t ht
    unfold find_tools_in_db at ht
    obtain ⟨q, hqmem, hqe⟩ := List.mem_map.mp ht
    have hq1 : q ∈ sorted_scored_tools tools_db keywords := List.mem_of_mem_take hqmem
    unfold sorted_scored_tools at hq1
    rw [List.mem_mergeSort] at hq1
    unfold scored_tools at hq1
    rw [List.mem_filter] at hq1
    obtain ⟨hqm, hqs⟩ := hq1
    obtain ⟨p, hp, hpe⟩ := List.mem_map.mp hqm
    subst hpe
    subst hqe
    refine ⟨snd_mem_of_mem_enumFrom hp, ?_⟩
    simpa using hqs
  · intro i t hget hscore
    unfold sorted_scored_tools
    rw [List.mem_mergeSort]
    unfold scored_tools
    rw [List.mem_filter]
    refine ⟨List.mem_map.mpr ⟨(i, t), mem_enum_of_get? hget, rfl⟩, by simpa using hscore⟩
  · have htrans : ∀ a b c : Nat × ToolRecord × Rat,
        scoreLE a b = true → scoreLE b c = true → scoreLE a c = true := by
      intro a b c hab hbc
      simp only [scoreLE, decide_eq_true_eq] at hab hbc ⊢
      rcases hab with h1 | ⟨h1, h1i⟩ <;> rcases hbc with h2 | ⟨h2, h2i⟩
      · exact Or.inl (lt_trans h2 h1)
      · exact Or.inl (h2 ▸ h1)
      · exact Or.inl (lt_of_lt_of_eq h2 h1.symm)
      · exact Or.inr ⟨h1.trans h2, le_trans h1i h2i⟩
    have htotal : ∀ a b : Nat × ToolRecord × Rat,
        (scoreLE a b || scoreLE b a) = true := by
      intro a b
      simp only [scoreLE, Bool.or_eq_true, decide_eq_true_eq]
      rcases lt_trichotomy a.2.2 b.2.2 with h | h | h
      · exact Or.inr (Or.inl h)
      · rcases Nat.le_total a.1 b.1 with hi | hi
        · exact Or.inl (Or.inr ⟨h, hi⟩)
        · exact Or.inr (Or.inr ⟨h.symm, hi⟩)
      · exact Or.inl (Or.inl h)
    have hs := List.sorted_mergeSort htrans htotal (scored_tools tools_db keywords)
    unfold sorted_scored_tools
    exact hs.imp (by
      intro a b h
      simpa [scoreLE, decide_eq_true_eq] using h)
  · intro kw kws t
    simp [total_score]

/-- C3 witness: in the spec's scenario-A catalog, the record `NoteApp`
matching the keyword `"notes"` with score 1 survives into the sorted
candidate list at catalog index 0. -/
theorem C3_witness :
    (0, noteApp, total_score ["notes"] noteApp) ∈ sorted_scored_tools c3_db ["notes"] :=
  (C3_lexical_retrieval c3_db ["notes"]).2.2.1 0 noteApp rfl (by
    have h1 : strContains noteApp.category "notes" = false := by decide
    have h2 : strContains noteApp.name "notes" = false := by decide
    have h3 : (noteApp.keywords.any (fun entry => strContains entry "notes")) = true := by
      decide
    have h4 : strContains noteApp.description "notes" = false := by decide
    simp only [total_score, List.map_cons, List.map_nil, List.sum_cons, List.sum_nil,
      keyword_score, h1, h2, h3, h4, if_true, if_false, Bool.false_eq_true]
    norm_num)

/-! ## Helper lemmas: session handlers and dispatch -/

theorem lookup_isSome_cons {l : List (String × Card)} {k k' : String} {c : Card}
    (h : (l.lookup k).isSome = true) :
    ((((k', c) :: l).lookup k)).isSome = true := by
  cases hk : k == k' <;> simp [List.lookup, hk, h]

theorem choose_action_fst (ud : UserData) (text : String) :
    (choose_action ud text).1 = ud := by
  unfold choose_action
  split
  · rfl
  · split <;> rfl

theorem web_search_prompt_handler_fst (env : Env) (ud : UserData) (choice : String) :
    (web_search_prompt_handler env ud choice).1 = ud := by
  unfold web_search_prompt_handler
  split
  · dsimp only
    split <;> rfl
  · rfl

theorem back_to_tool_step_fst (s : Session) (n : String) :
    (back_to_tool_step s n).1 = s := by
  unfold back_to_tool_step
  split <;> rfl

theorem back_restores (env : Env) (tools_db : List ToolRecord) (s : Session)
    (name : String) (other c : Card)
    (h : s.ud.cards.lookup ("tool_" ++ name) = some c) :
    dispatch env tools_db s (.callback ("back_to_tool:" ++ name) other) =
      (s, [Out.edit c]) := by
  simp [dispatch, dispatch_callback, not_price_of_back, strStartsWith_self_append,
    stringAfterColon_back, back_to_tool_step, h]

theorem dispatch_cards_isSome (env : Env) (tools_db : List ToolRecord) :
    ∀ (s : Session) (e : Event) (k : String),
      (s.ud.cards.lookup k).isSome = true →
      ((dispatch env tools_db s e).1.ud.cards.lookup k).isSome = true := by
  rintro ⟨st, ud⟩ e k h
  cases e with
  | command c =>
    simp only [dispatch]
    split
    · exact h
    · exact h
  | message text =>
    simp only [dispatch]
    cases st with
    | CHOOSE_ACTION =>
      simp only [dispatch_message]
      show (((choose_action ud text).1).cards.lookup k).isSome = true
      rw [choose_action_fst]
      exact h
    | GET_RECOMMENDATION_INPUT =>
      simp only [dispatch_message]
      exact h
    | GET_KEYWORD_SEARCH_INPUT =>
      simp only [dispatch_message]
      exact h
    | WEB_SEARCH_PROMPT =>
      simp only [dispatch_message]
      split
      · show (((web_search_prompt_handler env ud text).1).cards.lookup k).isSome = true
        rw [web_search_prompt_handler_fst]
        exact h
      · split
        · exact h
        · exact h
  | callback data msg =>
    simp only [dispatch, dispatch_callback]
    split
    · exact lookup_isSome_cons h
    · split
      · show ((back_to_tool_step ⟨st, ud⟩ (stringAfterColon data)).1.ud.cards.lookup k).isSome
          = true
        rw [back_to_tool_step_fst]
        exact h
      · exact h

theorem dispatch_lastq_isSome (env : Env) (tools_db : List ToolRecord) :
    ∀ (s : Session) (e : Event),
      s.ud.last_query.isSome = true →
      (dispatch env tools_db s e).1.ud.last_query.isSome = true := by
  rintro ⟨st, ud⟩ e h
  cases e with
  | command c =>
    simp only [dispatch]
    split
    · exact h
    · exact h
  | message text =>
    simp only [dispatch]
    cases st with
    | CHOOSE_ACTION =>
      simp only [dispatch_message]
      show ((choose_action ud text).1).last_query.isSome = true
      rw [choose_action_fst]
      exact h
    | GET_RECOMMENDATION_INPUT =>
      simp only [dispatch_message]
      rfl
    | GET_KEYWORD_SEARCH_INPUT =>
      simp only [dispatch_message]
      rfl
    | WEB_SEARCH_PROMPT =>
      simp only [dispatch_message]
      split
      · show ((web_search_prompt_handler env ud text).1).last_query.isSome = true
        rw [web_search_prompt_handler_fst]
        exact h
      · split
        · exact h
        · exact h
  | callback data msg =>
    simp only [dispatch, dispatch_callback]
    split
    · exact h
    · split
      · show (back_to_tool_step ⟨st, ud⟩ (stringAfterColon data)).1.ud.last_query.isSome
          = true
        rw [back_to_tool_step_fst]
        exact h
      · exact h

theorem run_cards_isSome (env : Env) (tools_db : List ToolRecord) :
    ∀ (es : List Event) (s : Session) (k : String),
      (s.ud.cards.lookup k).isSome = true →
      ((run env tools_db s es).ud.cards.lookup k).isSome = true := by
  intro es
  induction es with
  | nil => intro s k h; exact h
  | cons e rest ih =>
    intro s k h
    exact ih _ _ (dispatch_cards_isSome env tools_db s e k h)

theorem run_lastq_isSome (env : Env) (tools_db : List ToolRecord) :
    ∀ (es : List Event) (s : Session),
      s.ud.last_query.isSome = true →
      (run env tools_db s es).ud.last_query.isSome = true := by
  intro es
  induction es with
  | nil => intro s h; exact h
  | cons e rest ih =>
    intro s h
    exact ih _ (dispatch_lastq_isSome env tools_db s e h)

theorem run_price_present (env : Env) (tools_db : List ToolRecord) :
    ∀ (es : List Event) (s : Session) (name : String) (msg : Card),
      Event.callback ("price_check:" ++ name) msg ∈ es →
      ((run env tools_db s es).ud.cards.lookup ("tool_" ++ name)).isSome = true := by
  intro es
  induction es with
  | nil => intro s name msg h; cases h
  | cons e rest ih =>
    intro s name msg h
    rcases List.mem_cons.mp h with rfl | hmem
    · show ((run env tools_db
          (dispatch env tools_db s (Event.callback ("price_check:" ++ name) msg)).1
          rest).ud.cards.lookup ("tool_" ++ name)).isSome = true
      apply run_cards_isSome
      have hc : (dispatch env tools_db s
          (.callback ("price_check:" ++ name) msg)).1.ud.cards =
          ("tool_" ++ name, msg) :: s.ud.cards := by
        simp [dispatch, dispatch_callback, strStartsWith_self_append, price_check_step,
          stringAfterColon_price]
      rw [hc]
      simp [List.lookup]
    · exact ih _ _ _ hmem

/-- C5: a price check followed by the back action is an identity on the
rendered message.  `price_check_callback` snapshots the exact text and
controls of the message before overwriting it, and `back_to_tool_callback`
then restores precisely that snapshot, character for character. -/
theorem C5_price_back_identity (env : Env) (tools_db : List ToolRecord)
    (s : Session) (name : String) (msg other : Card) :
    ((dispatch env tools_db s (.callback ("price_check:" ++ name) msg)).1.ud.cards.lookup
        ("tool_" ++ name) = some msg) ∧
    (dispatch env tools_db
        (dispatch env tools_db s (.callback ("price_check:" ++ name) msg)).1
        (.callback ("back_to_tool:" ++ name) other)).2 = [Out.edit msg] := by
  have hstore : (dispatch env tools_db s
      (.callback ("price_check:" ++ name) msg)).1.ud.cards.lookup ("tool_" ++ name)
      = some msg := by
    have hc : (dispatch env tools_db s
        (.callback ("price_check:" ++ name) msg)).1.ud.cards =
        ("tool_" ++ name, msg) :: s.ud.cards := by
      simp [dispatch, dispatch_callback, strStartsWith_self_append, price_check_step,
        stringAfterColon_price]
    rw [hc]
    simp [List.lookup]
  exact ⟨hstore, by rw [back_restores env tools_db _ name other msg hstore]⟩

/-- C4 counterexample: from a session awaiting the follow-up choice with a
stored query and a stored card, a `cancel` signal is a no-op — the state does
not become idle, `last_query` and the card snapshot are NOT cleared (no
cancel handler exists in `main()`), and a subsequent `back_to_tool` callback
restores the old card instead of failing with the not-found message. -/
theorem C4_counterexample :
    dispatch env0 [] s0 (.command "cancel") = (s0, []) ∧
    s0.ud.last_query = some "query" ∧
    (dispatch env0 [] s0 (.callback "back_to_tool:Canva" ⟨"x", .noMarkup⟩)).2 =
      [Out.edit card0] := by
  refine ⟨by decide, rfl, by decide⟩

/-- C4 (amended): the code registers no cancel handler, so processing a
`cancel` signal leaves the session — state, stored `last_query` and stored
card snapshots — entirely unchanged; even the `/start` fallback preserves all
stored session data while re-rendering the menu; consequently a subsequent
`back_to_tool` callback referencing a stored card restores it rather than
failing with the explicit not-found message. -/
theorem C4_cancel_is_noop (env : Env) (tools_db : List ToolRecord) (s : Session)
    (name : String) (c other : Card) :
    dispatch env tools_db s (.command "cancel") = (s, []) ∧
    (dispatch env tools_db s (.command "start")).1 = ⟨.CHOOSE_ACTION, s.ud⟩ ∧
    (s.ud.cards.lookup ("tool_" ++ name) = some c →
      (dispatch env tools_db s (.callback ("back_to_tool:" ++ name) other)).2 =
        [Out.edit c]) := by
  refine ⟨by simp [dispatch], by simp [dispatch, start_handler], ?_⟩
  intro h
  rw [back_restores env tools_db s name other c h]

/-- C4 witness: on the concrete stored session, the back callback after the
no-op cancel yields the stored card. -/
theorem C4_witness :
    (dispatch env0 [] s0 (.callback ("back_to_tool:" ++ "Canva") ⟨"x", .noMarkup⟩)).2 =
      [Out.edit card0] :=
  (C4_cancel_is_noop env0 [] s0 "Canva" card0 ⟨"x", .noMarkup⟩).2.2 (by decide)

/-- C7: a successful embedding-index build yields an identity map whose
length equals the index row count (one row per embedding vector) and equals
the catalog size; the entry for row `i` is the name of the `i`-th catalog
record; and the embedded text is derived from exactly the `name`, `category`
and `description` fields, so records differing only in `url` or `keywords`
yield identical embedded text. -/
theorem C7_embedding_build {V : Type} (encode_one : String → V)
    (tools : List ToolRecord) :
    (create_and_save_embeddings encode_one tools).index_to_name.length =
      (create_and_save_embeddings encode_one tools).embeddings.length ∧
    (create_and_save_embeddings encode_one tools).index_to_name.length = tools.length ∧
    (∀ i t, tools.get? i = some t →
      (create_and_save_embeddings encode_one tools).index_to_name.get? i =
        some (i, t.name)) ∧
    (∀ t₁ t₂ : ToolRecord, t₁.name = t₂.name → t₁.category = t₂.category →
      t₁.description = t₂.description → combined_text t₁ = combined_text t₂) := by
  refine ⟨?_, ?_, ?_, ?_⟩
  · simp [create_and_save_embeddings, List.enum_length]
  · simp [create_and_save_embeddings, List.enum_length]
  · intro i t hget
    have h1 : (tools.map (fun t => t.name)).get? i = some t.name := by
      rw [List.get?_map, hget]
      rfl
    have h2 := enumFrom_get? (tools.map (fun t => t.name)) 0 i
    rw [h1] at h2
    simp only [Option.map_some, Nat.zero_add] at h2
    simpa [create_and_save_embeddings, List.enum] using h2
  · intro t₁ t₂ h1 h2 h3
    unfold combined_text
    rw [h1, h2, h3]

/-- C7 witness: on a one-record catalog the mapping's row 0 carries the
record's name. -/
theorem C7_witness :
    (create_and_save_embeddings (fun _ => (0 : Nat)) [c7_tool]).index_to_name.get? 0 =
      some (0, c7_tool.name) :=
  (C7_embedding_build (fun _ => (0 : Nat)) [c7_tool]).2.2.1 0 c7_tool rfl

/-- C9: no handler removes entries from the per-user session storage — any
stored card snapshot and any stored `last_query` survive every event trace,
including returns to the main menu and `/start`; once a `price_check:<name>`
callback occurs in a trace, a `tool_<name>` snapshot is present ever after;
and a `back_to_tool:<name>` callback on any session holding a snapshot for
`name` restores exactly that stored card, regardless of conversation state. -/
theorem C9_session_storage_persists (env : Env) (tools_db : List ToolRecord)
    (s : Session) (es : List Event) (name : String) (msg other : Card) :
    (∀ k, (s.ud.cards.lookup k).isSome = true →
        ((run env tools_db s es).ud.cards.lookup k).isSome = true) ∧
    (s.ud.last_query.isSome = true →
        (run env tools_db s es).ud.last_query.isSome = true) ∧
    (Event.callback ("price_check:" ++ name) msg ∈ es →
        ((run env tools_db s es).ud.cards.lookup ("tool_" ++ name)).isSome = true) ∧
    (∀ c, s.ud.cards.lookup ("tool_" ++ name) = some c →
        dispatch env tools_db s (.callback ("back_to_tool:" ++ name) other) =
          (s, [Out.edit c])) :=
  ⟨fun k h => run_cards_isSome env tools_db es s k h,
   fun h => run_lastq_isSome env tools_db es s h,
   fun h => run_price_present env tools_db es s name msg h,
   fun c h => back_restores env tools_db s name other c h⟩

/-- C9 witness: after a price check followed by `/start`, the snapshot for
the tool is still present. -/
theorem C9_witness :
    ((run env0 [] ⟨.CHOOSE_ACTION, ⟨none, []⟩⟩
        [Event.callback ("price_check:" ++ "Canva") card0,
         Event.command "start"]).ud.cards.lookup ("tool_" ++ "Canva")).isSome = true :=
  (C9_session_storage_persists env0 [] ⟨.CHOOSE_ACTION, ⟨none, []⟩⟩
      [Event.callback ("price_check:" ++ "Canva") card0, Event.command "start"]
      "Canva" card0 card0).2.2.1 (by decide)

end SmartToolsBot
